import Mathlib

/-!
Verification development for the terminal session lifecycle manager of the
cli-buddy repository (`src/main/TerminalManager.js`).

The JavaScript class `TerminalManager` is shallowly embedded as pure Lean
functions over an explicit state record `TerminalManager`.  JavaScript `Map`s
become association lists, timestamps (`Date.now()`) become `Int` parameters
threaded into the operations that read the clock, the external `pty.spawn`
call becomes a function parameter `spawn : String → SpawnResult`, and the
`setTimeout`-scheduled recovery becomes an explicit `pendingRecoveries` list
(the timer firing corresponds to calling `attemptRecovery`).  Throwing
JavaScript methods return `Except String _`.  Two observability-only fields
record otherwise-invisible effects: `notifications` logs every payload pushed
through `safeSend`, and `released` collects process handles whose ownership
the manager dropped (so that "terminated exactly once" is expressible).
-/

namespace CliBuddy

/-- Lookup in an association list, modelling `Map.get` / `Map.has`. -/
def alGet {α : Type} : List (String × α) → String → Option α
  | [], _ => none
  | p :: t, k => if p.1 = k then some p.2 else alGet t k

/-- Remove every binding of `k`, modelling `Map.delete` (stores keep keys
unique, so at most one binding is ever present). -/
def alErase {α : Type} : List (String × α) → String → List (String × α)
  | [], _ => []
  | p :: t, k => if p.1 = k then alErase t k else p :: alErase t k

/-- Insert-or-replace a binding, modelling `Map.set`. -/
def alSet {α : Type} (l : List (String × α)) (k : String) (v : α) : List (String × α) :=
  (k, v) :: alErase l k

/-- One pseudo-terminal process handle (`node-pty` process object).  `written`
logs the byte sequences forwarded by `write`, `resizes` logs resize calls,
`killCount` counts `kill()` invocations.  Listener registration is
per-process: `subscribed` tracks whether the crash-recovery lifecycle
listeners of `setupCrashRecovery` are attached, and `boundarySubscribed`
whether the boundary data/exit listeners of `handleCreateTerminal` are — the
latter are attached only to the session's original process and never
re-attached by `attemptRecovery`.  `removeAllListeners()` clears both. -/
structure ProcHandle where
  pid : Nat
  written : List String
  resizes : List (Nat × Nat)
  killCount : Nat
  subscribed : Bool
  boundarySubscribed : Bool := false
deriving Repr, DecidableEq

/-- A freshly spawned process handle, as returned by `pty.spawn`. -/
def ProcHandle.fresh (pid : Nat) : ProcHandle :=
  { pid := pid, written := [], resizes := [], killCount := 0, subscribed := false,
    boundarySubscribed := false }

/-- The immutable config snapshot stored with a session. -/
structure Config where
  shell : String
  cwd : String
  cols : Nat
  rows : Nat
  env : List (String × String)
deriving Repr, DecidableEq

/-- Session status strings `"active" | "recovering" | "disabled"`. -/
inductive Status where
  | active
  | recovering
  | disabled
deriving Repr, DecidableEq

/-- The renderer-side notification sink (`event.sender`); only its liveness
(`isDestroyed()`) is observable to the manager. -/
structure Sender where
  destroyed : Bool
deriving Repr, DecidableEq

/-- One session record stored in `this.terminals`. -/
structure Session where
  process : ProcHandle
  config : Config
  status : Status
  crashCount : Nat
  eventSender : Option Sender
deriving Repr, DecidableEq

/-- A payload pushed through `safeSend`: a `terminal:recovery` status
notification or a `terminal:exit` event. -/
inductive Notif where
  | recovery (id : String) (status : String)
  | exitEvt (id : String) (code : Option Int)
deriving Repr, DecidableEq

/-- The `TerminalManager` state.  `terminals` and `crashHistory` are the two
`Map`s of the constructor; `maxCrashesBeforeDisable` and `crashTimeWindow`
are the constructor constants (5 crashes / 60000 ms); `notifications` and
`pendingRecoveries` and `released` are the observability fields described in
the file header. -/
structure TerminalManager where
  terminals : List (String × Session)
  crashHistory : List (String × List Int)
  maxCrashesBeforeDisable : Nat
  crashTimeWindow : Int
  notifications : List Notif
  pendingRecoveries : List String
  released : List ProcHandle
deriving Repr, DecidableEq

/-- `new TerminalManager()`. -/
def TerminalManager.new : TerminalManager :=
  { terminals := [], crashHistory := [], maxCrashesBeforeDisable := 5,
    crashTimeWindow := 60000, notifications := [], pendingRecoveries := [],
    released := [] }

/-- The host OS facts the manager consults (`os.platform()`, `os.homedir()`,
`process.env`). -/
structure OsInfo where
  platform : String
  homedir : String
  env : List (String × String)
deriving Repr, DecidableEq

/-- `detectShell()`: platform to preferred shell. -/
def detectShell (osi : OsInfo) : String :=
  if osi.platform = "win32" then "powershell.exe"
  else if osi.platform = "darwin" then "/bin/zsh"
  else "/bin/bash"

/-- `getShellFallbacks()`: ordered fallback shell list per platform. -/
def getShellFallbacks (osi : OsInfo) : List String :=
  if osi.platform = "win32" then ["powershell.exe", "cmd.exe"]
  else if osi.platform = "darwin" then ["/bin/zsh", "/bin/bash", "/bin/sh"]
  else ["/bin/bash", "/bin/sh", "/bin/dash"]

/-- Outcome of one external `pty.spawn` call: success with a fresh process,
a throw whose `code` is `"EACCES"` (permission denied), or any other throw
with its message. -/
inductive SpawnResult where
  | ok (pid : Nat)
  | errPerm (msg : String)
  | errOther (msg : String)
deriving Repr, DecidableEq

/-- The creation options object `{shell?, cwd?, cols?, rows?, env?}`; an
absent field is `none` (the source applies `||`-defaults to absent fields). -/
structure CreateOptions where
  shell : Option String := none
  cwd : Option String := none
  cols : Option Nat := none
  rows : Option Nat := none
  env : Option (List (String × String)) := none
deriving Repr, DecidableEq

/-- `setupCrashRecovery(terminalId)`: subscribe the exit/error lifecycle
listeners on the stored process (no-op when the id is unknown). -/
def setupCrashRecovery (terminalId : String) (tm : TerminalManager) : TerminalManager :=
  match alGet tm.terminals terminalId with
  | none => tm
  | some term =>
      { tm with terminals := (alSet tm.terminals terminalId
          { term with process := { term.process with subscribed := true } }) }

/-- The candidate list of `createTerminalWithFallback`:
`specifiedShell ? [specifiedShell, ...fallbacks.filter(s => s !== specifiedShell)] : fallbacks`. -/
def shellsToTry (osi : OsInfo) (options : CreateOptions) : List String :=
  match options.shell with
  | some s => s :: (getShellFallbacks osi).filter (fun sh => sh != s)
  | none => getShellFallbacks osi

/-- The `for (const shell of shellsToTry)` loop body of
`createTerminalWithFallback`: try each candidate in order, succeed on the
first spawn that does not throw, abort on an `EACCES` throw, remember the
last message of any other throw, and raise the aggregate error when the
candidates run out. -/
def tryShells (spawn : String → SpawnResult) (terminalId : String)
    (cwd : String) (cols rows : Nat) (env : List (String × String)) :
    List String → Option String → TerminalManager → Except String TerminalManager
  | [], lastError, _ =>
      .error ("Failed to create terminal with any available shell: "
        ++ lastError.getD "Unknown error")
  | shell :: rest, _, tm =>
      match spawn shell with
      | .ok pid =>
          let sess : Session :=
            { process := ProcHandle.fresh pid,
              config := { shell := shell, cwd := cwd, cols := cols, rows := rows, env := env },
              status := .active, crashCount := 0, eventSender := none }
          .ok (setupCrashRecovery terminalId
            { tm with terminals := alSet tm.terminals terminalId sess })
      | .errPerm _ =>
          .error "Terminal creation failed: Permission denied. Please check shell permissions."
      | .errOther msg => tryShells spawn terminalId cwd cols rows env rest (some msg) tm

/-- `createTerminalWithFallback(options)`.  The freshly generated
`randomUUID()` is passed in as `terminalId`. -/
def createTerminalWithFallback (osi : OsInfo) (spawn : String → SpawnResult)
    (terminalId : String) (options : CreateOptions) (tm : TerminalManager) :
    Except String TerminalManager :=
  tryShells spawn terminalId (options.cwd.getD osi.homedir) (options.cols.getD 80)
    (options.rows.getD 24) (options.env.getD osi.env) (shellsToTry osi options) none tm

/-- `writeToTerminal(terminalId, data)`: forward the bytes to the stored
process handle, or throw `Terminal not found: <id>`. -/
def writeToTerminal (terminalId : String) (data : String) (tm : TerminalManager) :
    Except String TerminalManager :=
  match alGet tm.terminals terminalId with
  | none => .error ("Terminal not found: " ++ terminalId)
  | some term =>
      .ok { tm with terminals := (alSet tm.terminals terminalId
        { term with process := { term.process with written := term.process.written ++ [data] } }) }

/-- `resizeTerminal(terminalId, cols, rows)`. -/
def resizeTerminal (terminalId : String) (cols rows : Nat) (tm : TerminalManager) :
    Except String TerminalManager :=
  match alGet tm.terminals terminalId with
  | none => .error ("Terminal not found: " ++ terminalId)
  | some term =>
      .ok { tm with terminals := (alSet tm.terminals terminalId
        { term with process := { term.process with resizes := term.process.resizes ++ [(cols, rows)] } }) }

/-- `destroyTerminal(terminalId)`: unsubscribe listeners, kill the process,
drop the record; a silent no-op for an unknown id. -/
def destroyTerminal (terminalId : String) (tm : TerminalManager) : TerminalManager :=
  match alGet tm.terminals terminalId with
  | none => tm
  | some term =>
      { tm with
        terminals := alErase tm.terminals terminalId,
        released := (tm.released ++
          [{ term.process with subscribed := false, boundarySubscribed := false, killCount := term.process.killCount + 1 }]) }

/-- `cleanup()`: destroy every stored session. -/
def cleanup (tm : TerminalManager) : TerminalManager :=
  (tm.terminals.map Prod.fst).foldl (fun t terminalId => destroyTerminal terminalId t) tm

/-- `recordCrash(terminalId)` at clock value `now` (`Date.now()`): append the
timestamp, then drop entries at or before `now - crashTimeWindow`. -/
def recordCrash (now : Int) (terminalId : String) (tm : TerminalManager) : TerminalManager :=
  let crashes := ((alGet tm.crashHistory terminalId).getD []) ++ [now]
  let cutoff := now - tm.crashTimeWindow
  { tm with crashHistory := (alSet tm.crashHistory terminalId
      (crashes.filter (fun t => decide (cutoff < t)))) }

/-- The crash history currently stored for an id (`[]` when absent). -/
def crashesOf (terminalId : String) (tm : TerminalManager) : List Int :=
  (alGet tm.crashHistory terminalId).getD []

/-- `isInCrashLoop(terminalId)`: the stored history (as pruned by the last
`recordCrash`) has reached the threshold.  No clock is consulted. -/
def isInCrashLoop (terminalId : String) (tm : TerminalManager) : Bool :=
  decide (tm.maxCrashesBeforeDisable ≤ (crashesOf terminalId tm).length)

/-- A sequence of `recordCrash` calls at the given clock values, in order. -/
def recordCrashes (times : List Int) (terminalId : String) (tm : TerminalManager) :
    TerminalManager :=
  times.foldl (fun t now => recordCrash now terminalId t) tm

/-- `safeSend(sender, event, data)`: push the payload only when a sink exists
and is not destroyed. -/
def safeSend (sender : Option Sender) (n : Notif) (tm : TerminalManager) : TerminalManager :=
  match sender with
  | some s => if s.destroyed then tm else { tm with notifications := tm.notifications ++ [n] }
  | none => tm

/-- `handleProcessCrash(terminalId, exitCode, signal)` at clock value `now`:
record the crash; if now in a crash loop, disable permanently and push the
disabled notification; otherwise mark recovering and schedule a delayed
`attemptRecovery` (appended to `pendingRecoveries`). -/
def handleProcessCrash (now : Int) (terminalId : String) (tm : TerminalManager) :
    TerminalManager :=
  match alGet tm.terminals terminalId with
  | none => tm
  | some term =>
      let tm1 := recordCrash now terminalId tm
      if isInCrashLoop terminalId tm1 then
        safeSend term.eventSender (.recovery terminalId "disabled")
          ({ tm1 with terminals := alSet tm1.terminals terminalId { term with status := .disabled } })
      else
        { tm1 with
          terminals := alSet tm1.terminals terminalId { term with status := .recovering },
          pendingRecoveries := tm1.pendingRecoveries ++ [terminalId] }

/-- `attemptRecovery(terminalId)` (the scheduled-timer body): a no-op when the
record is gone or disabled; otherwise push `recovering`, release the old
handle, respawn from the stored config, and either go `active` (crashCount
incremented, listeners re-subscribed, `recovered` pushed) or, when the respawn
throws, go `disabled` (`disabled` pushed). -/
def attemptRecovery (spawn : String → SpawnResult) (terminalId : String)
    (tm : TerminalManager) : TerminalManager :=
  match alGet tm.terminals terminalId with
  | none => tm
  | some term =>
      if term.status = .disabled then tm
      else
        let tm1 := safeSend term.eventSender (.recovery terminalId "recovering") tm
        let oldP : ProcHandle :=
          { term.process with subscribed := false, boundarySubscribed := false, killCount := term.process.killCount + 1 }
        match spawn term.config.shell with
        | .ok pid =>
            let term2 : Session :=
              { term with
                process := ProcHandle.fresh pid, status := .active,
                crashCount := term.crashCount + 1 }
            safeSend term.eventSender (.recovery terminalId "recovered")
              (setupCrashRecovery terminalId
                { tm1 with
                  terminals := alSet tm1.terminals terminalId term2,
                  released := tm1.released ++ [oldP] })
        | .errPerm _ | .errOther _ =>
            safeSend term.eventSender (.recovery terminalId "disabled")
              ({ tm1 with terminals := (alSet tm1.terminals terminalId
                  { term with process := oldP, status := .disabled }) })

/-- `getTerminalStatus(terminalId)`. -/
def getTerminalStatus (terminalId : String) (tm : TerminalManager) : String :=
  match alGet tm.terminals terminalId with
  | some term =>
      match term.status with
      | .active => "active"
      | .recovering => "recovering"
      | .disabled => "disabled"
  | none => "not_found"

/-- The status stored for an id, as a `Status` value. -/
def statusOf (terminalId : String) (tm : TerminalManager) : Option Status :=
  (alGet tm.terminals terminalId).map (fun s => s.status)

/-- An IPC request payload; `id` is `none` when the field is `undefined` or
`null` (absent numeric/data fields are irrelevant to validation). -/
structure IpcMsg where
  id : Option String := none
  data : String := ""
  cols : Nat := 0
  rows : Nat := 0
deriving Repr, DecidableEq

/-- `validateMessage(message)`: throw when the message itself is missing, or
when `!message.id && message.id !== ""` (i.e. the id field is absent). -/
def validateMessage (message : Option IpcMsg) : Except String Unit :=
  match message with
  | none => .error "Invalid message: message is required"
  | some m =>
      match m.id with
      | none => .error "Invalid message: missing id"
      | some _ => .ok ()

/-- An IPC response `{success, error?}`. -/
structure Resp where
  success : Bool
  error : Option String := none
deriving Repr, DecidableEq

/-- `handleTerminalInput(event, data)`: validate, write, catch everything into
a `{success: false, error}` response. -/
def handleTerminalInput (message : Option IpcMsg) (tm : TerminalManager) :
    Resp × TerminalManager :=
  match (do
      validateMessage message
      writeToTerminal ((message.bind (fun m => m.id)).getD "")
        ((message.map (fun m => m.data)).getD "") tm : Except String TerminalManager) with
  | .error e => ({ success := false, error := some e }, tm)
  | .ok tm2 => ({ success := true }, tm2)

/-- `handleTerminalResize(event, data)`. -/
def handleTerminalResize (message : Option IpcMsg) (tm : TerminalManager) :
    Resp × TerminalManager :=
  match (do
      validateMessage message
      resizeTerminal ((message.bind (fun m => m.id)).getD "")
        ((message.map (fun m => m.cols)).getD 0)
        ((message.map (fun m => m.rows)).getD 0) tm : Except String TerminalManager) with
  | .error e => ({ success := false, error := some e }, tm)
  | .ok tm2 => ({ success := true }, tm2)

/-- `handleDestroyTerminal(event, data)`: validate, then destroy
(`destroyTerminal` never throws). -/
def handleDestroyTerminal (message : Option IpcMsg) (tm : TerminalManager) :
    Resp × TerminalManager :=
  match validateMessage message with
  | .error e => ({ success := false, error := some e }, tm)
  | .ok _ => ({ success := true }, destroyTerminal ((message.bind (fun m => m.id)).getD "") tm)

/-- A `CreateResp` `{success, id?, error?}`. -/
structure CreateResp where
  success : Bool
  id : Option String := none
  error : Option String := none
deriving Repr, DecidableEq

/-- `handleCreateTerminal(event, options)`: create with fallback and, on
success, attach the boundary data/exit listeners to the freshly spawned
(original) process and store the caller's sink in `eventSender` for recovery
notifications (the attached listeners' behavior is modelled by
`onProcessExit`). -/
def handleCreateTerminal (osi : OsInfo) (spawn : String → SpawnResult)
    (terminalId : String) (sender : Sender) (options : CreateOptions)
    (tm : TerminalManager) : CreateResp × TerminalManager :=
  match createTerminalWithFallback osi spawn terminalId options tm with
  | .error e => ({ success := false, error := some e }, tm)
  | .ok tm1 =>
      match alGet tm1.terminals terminalId with
      | none => ({ success := true, id := some terminalId }, tm1)
      | some term =>
          ({ success := true, id := some terminalId },
           { tm1 with terminals := (alSet tm1.terminals terminalId
               { term with eventSender := some sender,
                           process := { term.process with boundarySubscribed := true } }) })

/-- The process `exit` event on a session's current process, at clock value
`now`: exactly the listeners registered on that process object fire, in
attach order.  The `setupCrashRecovery` exit listener (present when
`subscribed`) handles a non-zero, non-null code as a crash; the boundary
listener of `handleCreateTerminal` (present only when `boundarySubscribed`,
i.e. on the session's original process — `attemptRecovery` never re-attaches
it to a respawn) pushes the exit notification and destroys the record when
the code is zero.  `code = none` models a `null` exit code. -/
def onProcessExit (now : Int) (terminalId : String) (code : Option Int)
    (tm : TerminalManager) : TerminalManager :=
  match alGet tm.terminals terminalId with
  | none => tm
  | some term =>
      let tm1 := if term.process.subscribed && code != some 0 && code != none then
        handleProcessCrash now terminalId tm else tm
      if term.process.boundarySubscribed then
        let tm2 := safeSend term.eventSender (.exitEvt terminalId code) tm1
        if code = some 0 then destroyTerminal terminalId tm2 else tm2
      else tm1

/-- Modelled from the spec's words, for comparison with the source's
`isInCrashLoop` (spec §3: "pruned to a trailing time window on every read"):
a reader that re-prunes at the clock value `now` of the read itself. -/
def isInCrashLoopPrunedAtRead (now : Int) (terminalId : String) (tm : TerminalManager) : Bool :=
  decide (tm.maxCrashesBeforeDisable ≤
    ((crashesOf terminalId tm).filter (fun t => decide (now - tm.crashTimeWindow < t))).length)

/-! ### Concrete sample states used by witness theorems -/

/-- A live notification sink. -/
def liveSender : Sender := { destroyed := false }

/-- A sample stored config. -/
def sampleConfig : Config :=
  { shell := "/bin/zsh", cwd := "/Users/testuser", cols := 80, rows := 24, env := [] }

/-- A sample subscribed process handle. -/
def sampleProc (pid : Nat) : ProcHandle :=
  { pid := pid, written := [], resizes := [], killCount := 0, subscribed := true }

/-- A session in the given status, owned by `liveSender`. -/
def sampleSession (pid : Nat) (st : Status) : Session :=
  { process := sampleProc pid, config := sampleConfig, status := st, crashCount := 0,
    eventSender := some liveSender }

/-- A manager holding one session `"a"` in the given status, with the given
crash history for `"a"`. -/
def sampleTM (st : Status) (crashes : List Int) : TerminalManager :=
  { TerminalManager.new with
    terminals := [("a", sampleSession 1 st)],
    crashHistory := [("a", crashes)] }

/-- A manager holding three active sessions. -/
def sampleTM3 : TerminalManager :=
  { TerminalManager.new with
    terminals := [("a", sampleSession 1 .active), ("b", sampleSession 2 .active),
      ("c", sampleSession 3 .active)] }

/-- A darwin host. -/
def darwinOs : OsInfo := { platform := "darwin", homedir := "/Users/testuser", env := [] }

/-- A spawn environment where `/bin/zsh` fails with a not-found error and
every other shell succeeds. -/
def spawnZshFails (sh : String) : SpawnResult :=
  if sh = "/bin/zsh" then .errOther "Shell not found" else .ok 7

/-- `sampleProc 1` with the creation-time boundary listeners attached, as
`handleCreateTerminal` leaves a session's original process. -/
def boundaryProc : ProcHandle := { sampleProc 1 with boundarySubscribed := true }

/-- An active session whose current process is its original one. -/
def boundarySession : Session := { sampleSession 1 .active with process := boundaryProc }

/-- A manager holding the original-process session `"a"`. -/
def boundaryTM : TerminalManager :=
  { TerminalManager.new with terminals := [("a", boundarySession)] }

/-- A fresh manager after a boundary creation of session `"a"`: the stored
original process carries both listener sets and the sink is live. -/
def createdTM : TerminalManager :=
  (handleCreateTerminal darwinOs (fun _ => SpawnResult.ok 1) "a" liveSender {}
    TerminalManager.new).2

/-- `createdTM` after one unexpected crash and a successful scheduled
recovery: the session is active again, but its current process is the
respawn, which carries no boundary exit listener. -/
def recoveredTM : TerminalManager :=
  attemptRecovery (fun _ => SpawnResult.ok 2) "a" (handleProcessCrash 0 "a" createdTM)

/-! ### Association-list lemmas -/

@[simp] theorem alGet_alSet_self {α : Type} (l : List (String × α)) (k : String) (v : α) :
    alGet (alSet l k v) k = some v := by
  simp [alSet, alGet]

@[simp] theorem alGet_alErase_self {α : Type} (l : List (String × α)) (k : String) :
    alGet (alErase l k) k = none := by
  induction l with
  | nil => rfl
  | cons p t ih =>
      by_cases h : p.1 = k
      · simpa [alErase, h] using ih
      · simp [alErase, alGet, h, ih]

theorem alGet_alErase_ne {α : Type} (l : List (String × α)) (k k' : String) (h : k' ≠ k) :
    alGet (alErase l k) k' = alGet l k' := by
  have hkk : k ≠ k' := fun hc => h hc.symm
  induction l with
  | nil => rfl
  | cons p t ih =>
      by_cases hk : p.1 = k
      · have hne : p.1 ≠ k' := by rw [hk]; exact hkk
        simp [alErase, alGet, hk, hne, ih, hkk]
      · by_cases hk' : p.1 = k'
        · simp [alErase, alGet, hk, hk', h]
        · simp [alErase, alGet, hk, hk', ih]

theorem alGet_alSet_ne {α : Type} (l : List (String × α)) (k k' : String) (v : α) (h : k' ≠ k) :
    alGet (alSet l k v) k' = alGet l k' := by
  have hne : k ≠ k' := fun hc => h hc.symm
  simp [alSet, alGet, hne, alGet_alErase_ne l k k' h]

@[simp] theorem alErase_alErase {α : Type} (l : List (String × α)) (k : String) :
    alErase (alErase l k) k = alErase l k := by
  induction l with
  | nil => rfl
  | cons p t ih =>
      by_cases h : p.1 = k
      · simp [alErase, h, ih]
      · simp [alErase, h, ih]

@[simp] theorem alSet_alSet {α : Type} (l : List (String × α)) (k : String) (v v' : α) :
    alSet (alSet l k v) k v' = alSet l k v' := by
  simp [alSet, alErase]

theorem alErase_of_not_mem {α : Type} (l : List (String × α)) (k : String)
    (h : k ∉ l.map Prod.fst) : alErase l k = l := by
  induction l with
  | nil => rfl
  | cons p t ih =>
      have h1 : p.1 ≠ k := by
        intro hc
        exact h (by simp [← hc])
      have h2 : k ∉ t.map Prod.fst := by
        intro hc
        exact h (by simp [hc])
      simp [alErase, h1, ih h2]

/-! ### Crash-tracker lemmas -/

@[simp] theorem recordCrash_terminals (now : Int) (terminalId : String) (tm : TerminalManager) :
    (recordCrash now terminalId tm).terminals = tm.terminals := rfl

@[simp] theorem recordCrash_crashTimeWindow (now : Int) (terminalId : String)
    (tm : TerminalManager) :
    (recordCrash now terminalId tm).crashTimeWindow = tm.crashTimeWindow := rfl

@[simp] theorem recordCrash_maxCrashes (now : Int) (terminalId : String) (tm : TerminalManager) :
    (recordCrash now terminalId tm).maxCrashesBeforeDisable = tm.maxCrashesBeforeDisable := rfl

@[simp] theorem recordCrash_notifications (now : Int) (terminalId : String)
    (tm : TerminalManager) :
    (recordCrash now terminalId tm).notifications = tm.notifications := rfl

@[simp] theorem recordCrash_pendingRecoveries (now : Int) (terminalId : String)
    (tm : TerminalManager) :
    (recordCrash now terminalId tm).pendingRecoveries = tm.pendingRecoveries := rfl

@[simp] theorem crashesOf_recordCrash (now : Int) (terminalId : String) (tm : TerminalManager) :
    crashesOf terminalId (recordCrash now terminalId tm)
      = ((crashesOf terminalId tm) ++ [now]).filter
          (fun t => decide (now - tm.crashTimeWindow < t)) := by
  simp [recordCrash, crashesOf]

theorem recordCrashes_cons (t : Int) (ts : List Int) (terminalId : String)
    (tm : TerminalManager) :
    recordCrashes (t :: ts) terminalId tm
      = recordCrashes ts terminalId (recordCrash t terminalId tm) := rfl

theorem recordCrashes_concat (ts : List Int) (t : Int) (terminalId : String)
    (tm : TerminalManager) :
    recordCrashes (ts ++ [t]) terminalId tm
      = recordCrash t terminalId (recordCrashes ts terminalId tm) := by
  simp [recordCrashes, List.foldl_append]

@[simp] theorem recordCrashes_crashTimeWindow (ts : List Int) (terminalId : String)
    (tm : TerminalManager) :
    (recordCrashes ts terminalId tm).crashTimeWindow = tm.crashTimeWindow := by
  induction ts generalizing tm with
  | nil => rfl
  | cons t ts ih => simp [recordCrashes_cons, ih]

@[simp] theorem recordCrashes_maxCrashes (ts : List Int) (terminalId : String)
    (tm : TerminalManager) :
    (recordCrashes ts terminalId tm).maxCrashesBeforeDisable = tm.maxCrashesBeforeDisable := by
  induction ts generalizing tm with
  | nil => rfl
  | cons t ts ih => simp [recordCrashes_cons, ih]

@[simp] theorem recordCrashes_terminals (ts : List Int) (terminalId : String)
    (tm : TerminalManager) :
    (recordCrashes ts terminalId tm).terminals = tm.terminals := by
  induction ts generalizing tm with
  | nil => rfl
  | cons t ts ih => simp [recordCrashes_cons, ih]

/-- One pruning step over an already-pruned history: re-filtering at a later
cutoff subsumes the earlier filter. -/
theorem filter_window_step (l : List Int) (s t w : Int) (hst : s ≤ t) :
    List.filter (fun x => decide (t - w < x))
        (List.filter (fun x => decide (s - w < x)) l ++ [t])
      = List.filter (fun x => decide (t - w < x)) (l ++ [t]) := by
  simp only [List.filter_append, List.filter_filter]
  congr 1
  apply List.filter_congr
  intro x hx
  by_cases hxt : t - w < x
  · have hxs : s - w < x := by omega
    simp [hxt, hxs]
  · simp [hxt]

/-- After a sequence of `recordCrash` calls at nondecreasing clock values
starting from an empty history, the stored history is exactly the input
sequence pruned at the clock value of the last call. -/
theorem crashesOf_recordCrashes_sorted (tm : TerminalManager) (terminalId : String)
    (ts : List Int) (t : Int)
    (h0 : crashesOf terminalId tm = [])
    (hsorted : (ts ++ [t]).Sorted (· ≤ ·)) :
    crashesOf terminalId (recordCrashes (ts ++ [t]) terminalId tm)
      = (ts ++ [t]).filter (fun x => decide (t - tm.crashTimeWindow < x)) := by
  induction ts using List.reverseRecOn generalizing t with
  | nil =>
      simp [recordCrashes, h0]
  | append_singleton ts s ih =>
      obtain ⟨h1, _, h3⟩ := List.pairwise_append.mp hsorted
      have hst : s ≤ t := h3 s (by simp) t (by simp)
      rw [recordCrashes_concat, crashesOf_recordCrash, recordCrashes_crashTimeWindow,
        ih s h1]
      exact filter_window_step (ts ++ [s]) s t tm.crashTimeWindow hst

/-- In a nondecreasing list every element is at most the last one. -/
theorem sorted_le_getLast (l : List Int) (x : Int) (hne : l ≠ [])
    (hsorted : l.Sorted (· ≤ ·)) (hx : x ∈ l) : x ≤ l.getLast hne := by
  induction l using List.reverseRecOn with
  | nil => exact absurd rfl hne
  | append_singleton l a _ =>
      obtain ⟨_, _, h3⟩ := List.pairwise_append.mp hsorted
      rw [List.getLast_concat]
      rcases List.mem_append.mp hx with hxl | hxa
      · exact h3 x hxl a (by simp)
      · simp at hxa
        omega

/-! ### Claim theorems -/

/-- C1: `isInCrashLoop(id)` returns true iff the pruned (stored) crash history
for that id has length at least the threshold (default 5); over any
nondecreasing sequence of `recordCrash` calls for a fresh id with the default
constants: five crashes within the 60-unit window yield `true`, four yield
`false`, and five crashes spread across more than the window yield `false`. -/
theorem isInCrashLoop_threshold_C1 (tm : TerminalManager) (terminalId : String)
    (ts : List Int)
    (hdef5 : tm.maxCrashesBeforeDisable = 5) (hdefw : tm.crashTimeWindow = 60000)
    (h0 : crashesOf terminalId tm = []) (hsorted : ts.Sorted (· ≤ ·)) :
    (∀ tm' : TerminalManager,
      isInCrashLoop terminalId tm' = true
        ↔ tm'.maxCrashesBeforeDisable ≤ (crashesOf terminalId tm').length)
    ∧ (ts.length = 5 → (∀ x ∈ ts, ∀ y ∈ ts, y - x < 60000) →
        isInCrashLoop terminalId (recordCrashes ts terminalId tm) = true)
    ∧ (ts.length = 4 →
        isInCrashLoop terminalId (recordCrashes ts terminalId tm) = false)
    ∧ (ts.length = 5 → (∃ x ∈ ts, ∃ y ∈ ts, 60000 < y - x) →
        isInCrashLoop terminalId (recordCrashes ts terminalId tm) = false) := by
  refine ⟨?_, ?_, ?_, ?_⟩
  · intro tm'
    simp [isInCrashLoop]
  · intro hlen hwin
    obtain rfl | ⟨ts', t, rfl⟩ := ts.eq_nil_or_concat
    · simp at hlen
    · simp only [List.concat_eq_append] at hsorted hlen hwin ⊢
      have hmemt : t ∈ ts' ++ [t] := by simp
      have hstore := crashesOf_recordCrashes_sorted tm terminalId ts' t h0 hsorted
      have hfull : (ts' ++ [t]).filter (fun x => decide (t - tm.crashTimeWindow < x))
          = ts' ++ [t] := by
        apply List.filter_eq_self.mpr
        intro x hxmem
        have hx := hwin x hxmem t hmemt
        simp only [decide_eq_true_eq]
        omega
      simp only [isInCrashLoop, hstore, hfull, recordCrashes_maxCrashes, hdef5,
        decide_eq_true_eq]
      omega
  · intro hlen
    obtain rfl | ⟨ts', t, rfl⟩ := ts.eq_nil_or_concat
    · simp at hlen
    · simp only [List.concat_eq_append] at hsorted hlen ⊢
      have hstore := crashesOf_recordCrashes_sorted tm terminalId ts' t h0 hsorted
      have hle := List.length_filter_le (fun x => decide (t - tm.crashTimeWindow < x))
        (ts' ++ [t])
      simp only [isInCrashLoop, hstore, recordCrashes_maxCrashes, hdef5,
        decide_eq_false_iff_not]
      omega
  · intro hlen hspread
    obtain ⟨x, hxmem, y, hymem, hxy⟩ := hspread
    obtain rfl | ⟨ts', t, rfl⟩ := ts.eq_nil_or_concat
    · simp at hlen
    · simp only [List.concat_eq_append] at hsorted hlen hxmem hymem ⊢
      have hstore := crashesOf_recordCrashes_sorted tm terminalId ts' t h0 hsorted
      have hyt : y ≤ t := by
        have hy := sorted_le_getLast (ts' ++ [t]) y (by simp) hsorted hymem
        rwa [List.getLast_concat] at hy
      have hlt : ((ts' ++ [t]).filter
            (fun x => decide (t - tm.crashTimeWindow < x))).length < (ts' ++ [t]).length := by
        apply List.length_filter_lt_length_iff_exists.mpr
        refine ⟨x, hxmem, ?_⟩
        simp only [decide_eq_true_eq]
        omega
      simp only [isInCrashLoop, hstore, recordCrashes_maxCrashes, hdef5,
        decide_eq_false_iff_not]
      omega

/-- Witness for C1: five crashes at clock values 0..4 on a fresh manager put
the id in a crash loop. -/
theorem isInCrashLoop_threshold_C1_witness :
    isInCrashLoop "a" (recordCrashes [0, 1, 2, 3, 4] "a" TerminalManager.new) = true :=
  (isInCrashLoop_threshold_C1 TerminalManager.new "a" [0, 1, 2, 3, 4] rfl rfl rfl
    (by decide)).2.1 (by decide) (by decide)

/-- C5 counterexample: after five crashes recorded at clock value 0, a read at
clock value 100000 — when every stored timestamp is older than the 60000-unit
window — still reports a crash loop: `isInCrashLoop` does not prune at read
time, contradicting "pruned to a trailing time window on every read". -/
theorem crashHistory_read_prune_C5_cex :
    isInCrashLoop "a" (recordCrashes [0, 0, 0, 0, 0] "a" TerminalManager.new) = true
    ∧ isInCrashLoopPrunedAtRead 100000 "a"
        (recordCrashes [0, 0, 0, 0, 0] "a" TerminalManager.new) = false := by
  decide

/-- C5 amended: the crash history is pruned to the trailing time window on
every *record*, not on every read: `recordCrash` appends the new timestamp and
drops entries at or before `now - crashTimeWindow` (touching nothing else),
and `isInCrashLoop` counts the stored history exactly as pruned by the most
recent record, without re-pruning at read time. -/
theorem crashHistory_write_prune_C5 (tm : TerminalManager) (now : Int)
    (terminalId : String) :
    crashesOf terminalId (recordCrash now terminalId tm)
      = ((crashesOf terminalId tm) ++ [now]).filter
          (fun t => decide (now - tm.crashTimeWindow < t))
    ∧ (recordCrash now terminalId tm).terminals = tm.terminals
    ∧ isInCrashLoop terminalId tm
      = decide (tm.maxCrashesBeforeDisable ≤ (crashesOf terminalId tm).length) :=
  ⟨crashesOf_recordCrash now terminalId tm, rfl, rfl⟩

/-! ### safeSend lemmas -/

@[simp] theorem safeSend_terminals (sender : Option Sender) (n : Notif) (tm : TerminalManager) :
    (safeSend sender n tm).terminals = tm.terminals := by
  cases sender with
  | none => rfl
  | some s => by_cases h : s.destroyed <;> simp [safeSend, h]

@[simp] theorem safeSend_crashHistory (sender : Option Sender) (n : Notif)
    (tm : TerminalManager) :
    (safeSend sender n tm).crashHistory = tm.crashHistory := by
  cases sender with
  | none => rfl
  | some s => by_cases h : s.destroyed <;> simp [safeSend, h]

@[simp] theorem safeSend_pendingRecoveries (sender : Option Sender) (n : Notif)
    (tm : TerminalManager) :
    (safeSend sender n tm).pendingRecoveries = tm.pendingRecoveries := by
  cases sender with
  | none => rfl
  | some s => by_cases h : s.destroyed <;> simp [safeSend, h]

@[simp] theorem safeSend_released (sender : Option Sender) (n : Notif) (tm : TerminalManager) :
    (safeSend sender n tm).released = tm.released := by
  cases sender with
  | none => rfl
  | some s => by_cases h : s.destroyed <;> simp [safeSend, h]

theorem safeSend_live (s : Sender) (n : Notif) (tm : TerminalManager)
    (h : s.destroyed = false) :
    safeSend (some s) n tm = { tm with notifications := tm.notifications ++ [n] } := by
  simp [safeSend, h]

/-- C2: when the recorded crash puts the session in a crash loop,
`handleProcessCrash` disables it, pushes the disabled notification to its live
sink, and schedules no recovery; and disabled is terminal for recovery:
`attemptRecovery` on a disabled session changes nothing. -/
theorem crashLoop_disables_C2 (tm : TerminalManager) (terminalId : String) (now : Int)
    (term : Session) (sender : Sender)
    (hterm : alGet tm.terminals terminalId = some term)
    (hsender : term.eventSender = some sender) (hlive : sender.destroyed = false)
    (hloop : isInCrashLoop terminalId (recordCrash now terminalId tm) = true) :
    (statusOf terminalId (handleProcessCrash now terminalId tm) = some .disabled
      ∧ (handleProcessCrash now terminalId tm).notifications
          = tm.notifications ++ [.recovery terminalId "disabled"]
      ∧ (handleProcessCrash now terminalId tm).pendingRecoveries = tm.pendingRecoveries)
    ∧ (∀ (tm2 : TerminalManager) (spawn : String → SpawnResult) (term2 : Session),
        alGet tm2.terminals terminalId = some term2 → term2.status = .disabled →
        attemptRecovery spawn terminalId tm2 = tm2) := by
  constructor
  · refine ⟨?_, ?_, ?_⟩ <;>
      simp [handleProcessCrash, hterm, hloop, statusOf, hsender, safeSend, hlive]
  · intro tm2 spawn term2 hterm2 hst2
    simp [attemptRecovery, hterm2, hst2]

/-- Witness for C2: four prior crashes plus the handled one disable session
`"a"`, and recovery on an already-disabled session is a no-op. -/
theorem crashLoop_disables_C2_witness :
    statusOf "a" (handleProcessCrash 4 "a" (sampleTM .active [0, 1, 2, 3])) = some .disabled
    ∧ attemptRecovery (fun _ => SpawnResult.ok 9) "a" (sampleTM .disabled [])
        = sampleTM .disabled [] := by
  constructor
  · exact (crashLoop_disables_C2 (sampleTM .active [0, 1, 2, 3]) "a" 4
      (sampleSession 1 .active) liveSender (by decide) rfl rfl (by decide)).1.1
  · exact (crashLoop_disables_C2 (sampleTM .active [0, 1, 2, 3]) "a" 4
      (sampleSession 1 .active) liveSender (by decide) rfl rfl (by decide)).2
      (sampleTM .disabled []) (fun _ => SpawnResult.ok 9)
      (sampleSession 1 .disabled) (by decide) rfl

/-- C4: when the scheduled recovery fires, a removed or disabled record means
nothing happens; otherwise the old handle is released (unsubscribed,
terminated), a new process is spawned from the stored config alone,
`crashCount` rises by exactly one, the status becomes active and a recovered
notification is pushed — or, when the respawn throws, the status becomes
disabled and a disabled notification is pushed instead. -/
theorem attemptRecovery_respawn_C4 (tm : TerminalManager) (terminalId : String)
    (spawn : String → SpawnResult) (term : Session) (sender : Sender) :
    (alGet tm.terminals terminalId = none → attemptRecovery spawn terminalId tm = tm)
    ∧ (alGet tm.terminals terminalId = some term → term.status = .disabled →
        attemptRecovery spawn terminalId tm = tm)
    ∧ (alGet tm.terminals terminalId = some term → term.status = .recovering →
        term.eventSender = some sender → sender.destroyed = false →
        (∀ pid, spawn term.config.shell = .ok pid →
          attemptRecovery spawn terminalId tm
            = { tm with
                terminals := (alSet tm.terminals terminalId
                  { term with
                    process := { pid := pid, written := [], resizes := [], killCount := 0, subscribed := true },
                    status := .active, crashCount := term.crashCount + 1 }),
                released := (tm.released
                  ++ [{ term.process with subscribed := false, boundarySubscribed := false, killCount := term.process.killCount + 1 }]),
                notifications := (tm.notifications
                  ++ [.recovery terminalId "recovering", .recovery terminalId "recovered"]) })
        ∧ (∀ m, spawn term.config.shell = .errPerm m ∨ spawn term.config.shell = .errOther m →
          attemptRecovery spawn terminalId tm
            = { tm with
                terminals := (alSet tm.terminals terminalId
                  { term with
                    process := { term.process with subscribed := false, boundarySubscribed := false, killCount := term.process.killCount + 1 },
                    status := .disabled }),
                notifications := (tm.notifications
                  ++ [.recovery terminalId "recovering", .recovery terminalId "disabled"]) })) := by
  refine ⟨?_, ?_, ?_⟩
  · intro hnone
    simp [attemptRecovery, hnone]
  · intro hterm hdis
    simp [attemptRecovery, hterm, hdis]
  · intro hterm hrec hsender hlive
    constructor
    · intro pid hok
      simp [attemptRecovery, hterm, hrec, hsender, safeSend, hlive, hok,
        setupCrashRecovery, ProcHandle.fresh]
    · intro m hthrow
      rcases hthrow with herr | herr <;>
        simp [attemptRecovery, hterm, hrec, hsender, safeSend, hlive, herr]

/-- Witness for C4: a successful respawn of the recovering session `"a"`. -/
theorem attemptRecovery_respawn_C4_witness :
    attemptRecovery (fun _ => SpawnResult.ok 9) "a" (sampleTM .recovering [])
      = { sampleTM .recovering [] with
          terminals := (alSet (sampleTM .recovering []).terminals "a"
            { sampleSession 1 .recovering with
              process := { pid := 9, written := [], resizes := [], killCount := 0, subscribed := true },
              status := .active, crashCount := 1 }),
          released := [{ sampleProc 1 with subscribed := false, killCount := 1 }],
          notifications := [.recovery "a" "recovering", .recovery "a" "recovered"] } :=
  ((attemptRecovery_respawn_C4 (sampleTM .recovering []) "a" (fun _ => SpawnResult.ok 9)
    (sampleSession 1 .recovering) liveSender).2.2 (by decide) rfl rfl rfl).1 9 rfl

/-! ### Creation-with-fallback lemmas -/

/-- A prefix of not-found failures is skipped and the first non-failing
candidate wins. -/
theorem tryShells_ok (spawn : String → SpawnResult) (terminalId cwd : String)
    (cols rows : Nat) (env : List (String × String)) (pre : List String) (s : String)
    (post : List String) (pid : Nat) (lastErr : Option String) (tm : TerminalManager)
    (hpre : ∀ x ∈ pre, ∃ m, spawn x = .errOther m) (hs : spawn s = .ok pid) :
    tryShells spawn terminalId cwd cols rows env (pre ++ s :: post) lastErr tm
      = .ok (setupCrashRecovery terminalId
          { tm with terminals := (alSet tm.terminals terminalId
            { process := ProcHandle.fresh pid,
              config := { shell := s, cwd := cwd, cols := cols, rows := rows, env := env },
              status := .active, crashCount := 0, eventSender := none }) }) := by
  revert hpre
  induction pre generalizing lastErr with
  | nil =>
      intro _
      simp [tryShells, hs]
  | cons x pre ih =>
      intro hpre
      obtain ⟨m, hm⟩ := hpre x (by simp)
      have hstep : tryShells spawn terminalId cwd cols rows env
            ((x :: pre) ++ s :: post) lastErr tm
          = tryShells spawn terminalId cwd cols rows env (pre ++ s :: post) (some m) tm := by
        simp [tryShells, hm]
      rw [hstep]
      exact ih (some m) (fun y hy => hpre y (by simp [hy]))

/-- A permission-denied spawn aborts the whole search with the distinct
permission error. -/
theorem tryShells_perm (spawn : String → SpawnResult) (terminalId cwd : String)
    (cols rows : Nat) (env : List (String × String)) (pre : List String) (s : String)
    (post : List String) (m : String) (lastErr : Option String) (tm : TerminalManager)
    (hpre : ∀ x ∈ pre, ∃ m2, spawn x = .errOther m2) (hs : spawn s = .errPerm m) :
    tryShells spawn terminalId cwd cols rows env (pre ++ s :: post) lastErr tm
      = .error "Terminal creation failed: Permission denied. Please check shell permissions." := by
  revert hpre
  induction pre generalizing lastErr with
  | nil =>
      intro _
      simp [tryShells, hs]
  | cons x pre ih =>
      intro hpre
      obtain ⟨m2, hm⟩ := hpre x (by simp)
      have hstep : tryShells spawn terminalId cwd cols rows env
            ((x :: pre) ++ s :: post) lastErr tm
          = tryShells spawn terminalId cwd cols rows env (pre ++ s :: post) (some m2) tm := by
        simp [tryShells, hm]
      rw [hstep]
      exact ih (some m2) (fun y hy => hpre y (by simp [hy]))

/-- When every candidate fails with a not-found error, the aggregate error
carries the message of the last failure. -/
theorem tryShells_allFail (spawn : String → SpawnResult) (terminalId cwd : String)
    (cols rows : Nat) (env : List (String × String)) (pre : List String) (s : String)
    (m : String) (lastErr : Option String) (tm : TerminalManager)
    (hpre : ∀ x ∈ pre, ∃ m2, spawn x = .errOther m2) (hs : spawn s = .errOther m) :
    tryShells spawn terminalId cwd cols rows env (pre ++ [s]) lastErr tm
      = .error ("Failed to create terminal with any available shell: " ++ m) := by
  revert hpre
  induction pre generalizing lastErr with
  | nil =>
      intro _
      simp [tryShells, hs]
  | cons x pre ih =>
      intro hpre
      obtain ⟨m2, hm⟩ := hpre x (by simp)
      have hstep : tryShells spawn terminalId cwd cols rows env
            ((x :: pre) ++ [s]) lastErr tm
          = tryShells spawn terminalId cwd cols rows env (pre ++ [s]) (some m2) tm := by
        simp [tryShells, hm]
      rw [hstep]
      exact ih (some m2) (fun y hy => hpre y (by simp [hy]))

/-- The candidate list never repeats a shell. -/
theorem shellsToTry_nodup (osi : OsInfo) (options : CreateOptions) :
    (shellsToTry osi options).Nodup := by
  have hfb : (getShellFallbacks osi).Nodup := by
    unfold getShellFallbacks
    split_ifs <;> decide
  cases hsh : options.shell with
  | none => simpa [shellsToTry, hsh] using hfb
  | some sh =>
      simp only [shellsToTry, hsh]
      rw [List.nodup_cons]
      constructor
      · intro hmem
        have hne := (List.mem_filter.mp hmem).2
        simp at hne
      · exact hfb.filter _

/-- C3: creation with fallback tries the deduplicated candidate list (the
requested shell first when given) in order; the first spawn that does not
throw wins and the session is stored active with listeners subscribed; a
permission-denied throw aborts immediately with the distinct permission
error; other throws fall through to the next candidate; when every candidate
throws, the aggregate error references the last failure. -/
theorem createWithFallback_C3 (osi : OsInfo) (spawn : String → SpawnResult)
    (terminalId : String) (options : CreateOptions) (tm : TerminalManager) :
    (shellsToTry osi options).Nodup
    ∧ (∀ (pre : List String) (s : String) (post : List String) (pid : Nat),
        shellsToTry osi options = pre ++ s :: post →
        (∀ x ∈ pre, ∃ m, spawn x = .errOther m) → spawn s = .ok pid →
        createTerminalWithFallback osi spawn terminalId options tm
          = .ok (setupCrashRecovery terminalId
              { tm with terminals := (alSet tm.terminals terminalId
                { process := ProcHandle.fresh pid,
                  config := { shell := s, cwd := options.cwd.getD osi.homedir,
                              cols := options.cols.getD 80, rows := options.rows.getD 24,
                              env := options.env.getD osi.env },
                  status := .active, crashCount := 0, eventSender := none }) }))
    ∧ (∀ (pre : List String) (s : String) (post : List String) (m : String),
        shellsToTry osi options = pre ++ s :: post →
        (∀ x ∈ pre, ∃ m2, spawn x = .errOther m2) → spawn s = .errPerm m →
        createTerminalWithFallback osi spawn terminalId options tm
          = .error "Terminal creation failed: Permission denied. Please check shell permissions.")
    ∧ (∀ (pre : List String) (s : String) (m : String),
        shellsToTry osi options = pre ++ [s] →
        (∀ x ∈ pre, ∃ m2, spawn x = .errOther m2) → spawn s = .errOther m →
        createTerminalWithFallback osi spawn terminalId options tm
          = .error ("Failed to create terminal with any available shell: " ++ m)) := by
  refine ⟨shellsToTry_nodup osi options, ?_, ?_, ?_⟩
  · intro pre s post pid hsplit hpre hok
    unfold createTerminalWithFallback
    rw [hsplit]
    exact tryShells_ok spawn terminalId (options.cwd.getD osi.homedir) (options.cols.getD 80)
      (options.rows.getD 24) (options.env.getD osi.env) pre s post pid none tm hpre hok
  · intro pre s post m hsplit hpre hperm
    unfold createTerminalWithFallback
    rw [hsplit]
    exact tryShells_perm spawn terminalId (options.cwd.getD osi.homedir) (options.cols.getD 80)
      (options.rows.getD 24) (options.env.getD osi.env) pre s post m none tm hpre hperm
  · intro pre s m hsplit hpre herr
    unfold createTerminalWithFallback
    rw [hsplit]
    exact tryShells_allFail spawn terminalId (options.cwd.getD osi.homedir) (options.cols.getD 80)
      (options.rows.getD 24) (options.env.getD osi.env) pre s m none tm hpre herr

/-- Witness for C3: on darwin with no requested shell, `/bin/zsh` failing with
a not-found error falls through to `/bin/bash`, which succeeds. -/
theorem createWithFallback_C3_witness :
    createTerminalWithFallback darwinOs spawnZshFails "t1" {} TerminalManager.new
      = .ok (setupCrashRecovery "t1"
          { TerminalManager.new with terminals := (alSet TerminalManager.new.terminals "t1"
            { process := ProcHandle.fresh 7,
              config := { shell := "/bin/bash", cwd := "/Users/testuser", cols := 80,
                          rows := 24, env := [] },
              status := .active, crashCount := 0, eventSender := none }) }) :=
  (createWithFallback_C3 darwinOs spawnZshFails "t1" {} TerminalManager.new).2.1
    ["/bin/zsh"] "/bin/bash" ["/bin/sh"] 7 (by decide)
    (by
      intro x hx
      simp only [List.mem_singleton] at hx
      exact ⟨"Shell not found", by rw [hx]; decide⟩)
    (by decide)

/-- C6 counterexample: a session created through the boundary, crashed once,
and successfully recovered is live and active, yet a zero-code exit on its
respawned process changes nothing — the record is not destroyed and a
subsequent write still succeeds — because `attemptRecovery` never re-attaches
the boundary exit listener that implements destroy-on-zero-exit. -/
theorem zeroExit_destroys_C6_cex :
    statusOf "a" recoveredTM = some .active
    ∧ onProcessExit 1 "a" (some 0) recoveredTM = recoveredTM
    ∧ (writeToTerminal "a" "x" (onProcessExit 1 "a" (some 0) recoveredTM)).isOk = true :=
  ⟨rfl, rfl, rfl⟩

/-- C6 amended: destroy-on-zero-exit is implemented by the boundary exit
listener that `handleCreateTerminal` attaches to the session's original
process.  While the current process still carries it, a zero exit records no
crash, schedules no recovery, destroys the record outright, and a later write
fails with the unknown-id error; on a respawned process (recovery never
re-attaches the listener) a zero exit does nothing at all. -/
theorem zeroExit_destroys_C6 (tm : TerminalManager) (terminalId : String) (now : Int)
    (term : Session) (d : String)
    (hterm : alGet tm.terminals terminalId = some term) :
    (term.process.boundarySubscribed = true →
      (onProcessExit now terminalId (some 0) tm).crashHistory = tm.crashHistory
      ∧ (onProcessExit now terminalId (some 0) tm).pendingRecoveries = tm.pendingRecoveries
      ∧ alGet (onProcessExit now terminalId (some 0) tm).terminals terminalId = none
      ∧ writeToTerminal terminalId d (onProcessExit now terminalId (some 0) tm)
          = .error ("Terminal not found: " ++ terminalId))
    ∧ (term.process.boundarySubscribed = false →
      onProcessExit now terminalId (some 0) tm = tm) := by
  constructor
  · intro hb
    have hd : onProcessExit now terminalId (some 0) tm
        = destroyTerminal terminalId
            (safeSend term.eventSender (.exitEvt terminalId (some 0)) tm) := by
      simp [onProcessExit, hterm, hb]
    have hds : destroyTerminal terminalId
          (safeSend term.eventSender (.exitEvt terminalId (some 0)) tm)
        = { safeSend term.eventSender (.exitEvt terminalId (some 0)) tm with
            terminals := alErase tm.terminals terminalId,
            released := ((safeSend term.eventSender (.exitEvt terminalId (some 0)) tm).released
              ++ [{ term.process with subscribed := false, boundarySubscribed := false, killCount := term.process.killCount + 1 }]) } := by
      simp [destroyTerminal, hterm]
    rw [hd, hds]
    refine ⟨by simp, by simp, by simp, ?_⟩
    simp [writeToTerminal]
  · intro hb
    simp [onProcessExit, hterm, hb]

/-- Witness for C6 (amended): a zero exit on the original-process session
`"a"` destroys the record and a later write fails with the unknown-id error,
while on the recovered session it is the identity. -/
theorem zeroExit_destroys_C6_witness :
    alGet (onProcessExit 0 "a" (some 0) boundaryTM).terminals "a" = none
    ∧ writeToTerminal "a" "x" (onProcessExit 0 "a" (some 0) boundaryTM)
        = .error ("Terminal not found: " ++ "a")
    ∧ onProcessExit 0 "a" (some 0) (sampleTM .active []) = sampleTM .active [] :=
  ⟨((zeroExit_destroys_C6 boundaryTM "a" 0 boundarySession "x" (by decide)).1
      (by decide)).2.2.1,
   ((zeroExit_destroys_C6 boundaryTM "a" 0 boundarySession "x" (by decide)).1
      (by decide)).2.2.2,
   (zeroExit_destroys_C6 (sampleTM .active []) "a" 0 (sampleSession 1 .active) "x"
      (by decide)).2 (by decide)⟩

/-- C7: `writeToTerminal` forwards exactly the given byte sequence once to the
stored process handle whenever a record exists (in any status); on a missing
id it fails synchronously with an error naming the id and the request handler
turns that into a failure response without touching the state. -/
theorem write_forwards_C7 (tm : TerminalManager) (terminalId : String) (d : String)
    (term : Session) :
    (alGet tm.terminals terminalId = some term →
      writeToTerminal terminalId d tm
        = .ok { tm with terminals := (alSet tm.terminals terminalId
            { term with process := { term.process with written := term.process.written ++ [d] } }) })
    ∧ (alGet tm.terminals terminalId = none →
      writeToTerminal terminalId d tm = .error ("Terminal not found: " ++ terminalId)
      ∧ handleTerminalInput (some { id := some terminalId, data := d }) tm
          = ({ success := false, error := some ("Terminal not found: " ++ terminalId) }, tm)) := by
  constructor
  · intro hterm
    simp [writeToTerminal, hterm]
  · intro hnone
    have hw : writeToTerminal terminalId d tm
        = .error ("Terminal not found: " ++ terminalId) := by
      simp [writeToTerminal, hnone]
    refine ⟨hw, ?_⟩
    simp [handleTerminalInput, validateMessage, hw, Bind.bind, Except.bind]

/-- Witness for C7: a write to the live session `"a"` appends exactly the
bytes once; a write addressed to the unknown id `"b"` yields the failure
response naming it. -/
theorem write_forwards_C7_witness :
    writeToTerminal "a" "echo hi" (sampleTM .active [])
      = .ok { sampleTM .active [] with
          terminals := (alSet (sampleTM .active []).terminals "a"
            { sampleSession 1 .active with
              process := { sampleProc 1 with written := ["echo hi"] } }) }
    ∧ handleTerminalInput (some { id := some "b", data := "x" }) (sampleTM .active [])
        = ({ success := false, error := some ("Terminal not found: " ++ "b") },
           sampleTM .active []) :=
  ⟨(write_forwards_C7 (sampleTM .active []) "a" "echo hi" (sampleSession 1 .active)).1
      (by decide),
   ((write_forwards_C7 (sampleTM .active []) "b" "x" (sampleSession 1 .active)).2
      (by decide)).2⟩

/-- C8: destroy always reports success: on an existing record it unsubscribes
the listeners, kills the process once, and removes the record; on an unknown
id it is a no-op that still returns success. -/
theorem destroy_always_succeeds_C8 (tm : TerminalManager) (terminalId : String)
    (term : Session) :
    (alGet tm.terminals terminalId = none →
      destroyTerminal terminalId tm = tm
      ∧ handleDestroyTerminal (some { id := some terminalId }) tm = ({ success := true }, tm))
    ∧ (alGet tm.terminals terminalId = some term →
      (destroyTerminal terminalId tm).terminals = alErase tm.terminals terminalId
      ∧ alGet (destroyTerminal terminalId tm).terminals terminalId = none
      ∧ (destroyTerminal terminalId tm).released
          = tm.released ++ [{ term.process with subscribed := false, boundarySubscribed := false, killCount := term.process.killCount + 1 }]
      ∧ handleDestroyTerminal (some { id := some terminalId }) tm
          = ({ success := true }, destroyTerminal terminalId tm)) := by
  constructor
  · intro hnone
    have hdt : destroyTerminal terminalId tm = tm := by
      simp [destroyTerminal, hnone]
    exact ⟨hdt, by simp [handleDestroyTerminal, validateMessage, hdt]⟩
  · intro hterm
    refine ⟨?_, ?_, ?_, ?_⟩
    · simp [destroyTerminal, hterm]
    · simp [destroyTerminal, hterm]
    · simp [destroyTerminal, hterm]
    · simp [handleDestroyTerminal, validateMessage]

/-- Witness for C8: destroying the never-created id `"zzz"` is a successful
no-op; destroying the live session `"a"` removes its record. -/
theorem destroy_always_succeeds_C8_witness :
    destroyTerminal "zzz" (sampleTM .active []) = sampleTM .active []
    ∧ handleDestroyTerminal (some { id := some "zzz" }) (sampleTM .active [])
        = ({ success := true }, sampleTM .active [])
    ∧ alGet (destroyTerminal "a" (sampleTM .active [])).terminals "a" = none :=
  ⟨((destroy_always_succeeds_C8 (sampleTM .active []) "zzz" (sampleSession 1 .active)).1
      (by decide)).1,
   (by
      have h := ((destroy_always_succeeds_C8 (sampleTM .active []) "zzz"
        (sampleSession 1 .active)).1 (by decide))
      rw [h.1] at h
      exact h.2),
   ((destroy_always_succeeds_C8 (sampleTM .active []) "a" (sampleSession 1 .active)).2
      (by decide)).2.1⟩

/-! ### Cleanup lemmas -/

/-- Destroying the head entry of the store. -/
theorem destroyTerminal_head (k : String) (sess : Session) (l : List (String × Session))
    (tm : TerminalManager) (htm : tm.terminals = (k, sess) :: l)
    (hnot : k ∉ l.map Prod.fst) :
    destroyTerminal k tm
      = { tm with
          terminals := l,
          released := (tm.released ++ [{ sess.process with subscribed := false, boundarySubscribed := false, killCount := sess.process.killCount + 1 }]) } := by
  have hget : alGet tm.terminals k = some sess := by rw [htm]; simp [alGet]
  unfold destroyTerminal
  rw [hget, htm]
  simp [alErase, alErase_of_not_mem l k hnot]

/-- Folding `destroyTerminal` over all the store's keys empties the store and
releases each stored handle, killed exactly once, in order. -/
theorem cleanup_go (l : List (String × Session)) (tm : TerminalManager)
    (htm : tm.terminals = l) (hnodup : (l.map Prod.fst).Nodup) :
    ((l.map Prod.fst).foldl (fun t k => destroyTerminal k t) tm).terminals = []
    ∧ ((l.map Prod.fst).foldl (fun t k => destroyTerminal k t) tm).released
        = tm.released ++ l.map
            (fun e => { e.2.process with subscribed := false, boundarySubscribed := false, killCount := e.2.process.killCount + 1 }) := by
  induction l generalizing tm with
  | nil => simp [htm]
  | cons e l ih =>
      obtain ⟨k, sess⟩ := e
      simp only [List.map_cons, List.foldl_cons]
      simp only [List.map_cons] at hnodup
      rw [List.nodup_cons] at hnodup
      have hd := destroyTerminal_head k sess l tm htm hnodup.1
      rw [hd]
      have ih2 := ih { tm with
        terminals := l,
        released := (tm.released ++ [{ sess.process with subscribed := false, boundarySubscribed := false, killCount := sess.process.killCount + 1 }]) } rfl hnodup.2
      refine ⟨ih2.1, ?_⟩
      rw [ih2.2]
      simp

/-- C9: `cleanup()` leaves the store empty, kills each stored session's
process handle exactly once (releasing them in store order), and is
idempotent: a second call on the emptied store changes nothing. -/
theorem cleanup_destroys_all_C9 (tm : TerminalManager)
    (hnodup : (tm.terminals.map Prod.fst).Nodup) :
    (cleanup tm).terminals = []
    ∧ (cleanup tm).released
        = tm.released ++ tm.terminals.map
            (fun e => { e.2.process with subscribed := false, boundarySubscribed := false, killCount := e.2.process.killCount + 1 })
    ∧ cleanup (cleanup tm) = cleanup tm := by
  have h := cleanup_go tm.terminals tm rfl hnodup
  refine ⟨h.1, h.2, ?_⟩
  have h1 : (cleanup tm).terminals = [] := h.1
  show ((cleanup tm).terminals.map Prod.fst).foldl (fun t k => destroyTerminal k t) (cleanup tm)
      = cleanup tm
  rw [h1]
  rfl

/-- Witness for C9: a manager with three live sessions ends with an empty
store, three handles each killed once, and a second cleanup is a no-op. -/
theorem cleanup_destroys_all_C9_witness :
    (cleanup sampleTM3).terminals = []
    ∧ (cleanup sampleTM3).released
        = [{ sampleProc 1 with subscribed := false, killCount := 1 },
           { sampleProc 2 with subscribed := false, killCount := 1 },
           { sampleProc 3 with subscribed := false, killCount := 1 }]
    ∧ cleanup (cleanup sampleTM3) = cleanup sampleTM3 := by
  have h := cleanup_destroys_all_C9 sampleTM3 (by decide)
  exact ⟨h.1, h.2.1, h.2.2⟩

/-- C10: the request validator accepts the empty string as an id — only a
missing id (or missing message) is rejected as malformed — so write and
resize requests with id `""` reach the manager and fail with the
terminal-not-found error naming the empty id, while destroy still succeeds. -/
theorem emptyId_accepted_C10 (tm : TerminalManager) (d : String) (cols rows : Nat)
    (hempty : alGet tm.terminals "" = none) :
    validateMessage (some { id := some "" }) = .ok ()
    ∧ validateMessage (some { id := none }) = .error "Invalid message: missing id"
    ∧ validateMessage none = .error "Invalid message: message is required"
    ∧ handleTerminalInput (some { id := some "", data := d }) tm
        = ({ success := false, error := some ("Terminal not found: " ++ "") }, tm)
    ∧ handleTerminalResize (some { id := some "", cols := cols, rows := rows }) tm
        = ({ success := false, error := some ("Terminal not found: " ++ "") }, tm)
    ∧ handleDestroyTerminal (some { id := some "" }) tm = ({ success := true }, tm) := by
  refine ⟨rfl, rfl, rfl, ?_, ?_, ?_⟩
  · simp [handleTerminalInput, validateMessage, writeToTerminal, hempty, Bind.bind, Except.bind]
  · simp [handleTerminalResize, validateMessage, resizeTerminal, hempty, Bind.bind, Except.bind]
  · simp [handleDestroyTerminal, validateMessage, destroyTerminal, hempty]

/-- Witness for C10 on a fresh manager. -/
theorem emptyId_accepted_C10_witness :
    handleTerminalInput (some { id := some "", data := "x" }) TerminalManager.new
      = ({ success := false, error := some ("Terminal not found: " ++ "") },
         TerminalManager.new)
    ∧ handleDestroyTerminal (some { id := some "" }) TerminalManager.new
        = ({ success := true }, TerminalManager.new) :=
  ⟨(emptyId_accepted_C10 TerminalManager.new "x" 1 1 rfl).2.2.2.1,
   (emptyId_accepted_C10 TerminalManager.new "x" 1 1 rfl).2.2.2.2.2⟩

end CliBuddy
